import Mathlib

/-!
# Button: the declared interface of the Button component

`src/Button.js` declares four Flow types (`ButtonType`, `ButtonSize`, `Props`,
`State`) and, in a comment, the class `Button extends React$Component<Props, State>`.

The first part of this file embeds the four declared types.  String-literal
unions become enumerations together with the literal each variant stands for,
object types become structures whose optional properties (`name?: T`) are
`Option`-valued, and the library types the declarations mention but do not
define (`ElementRef<any>`, `React$Node`, `SyntheticEvent<any>`, `Promise<any>`,
`Object`) are parameters collected in `Host`.

The second part models the behaviour of the `Button` class, whose body is not
in the source, from the written specification.
-/

namespace Button

/-! ## Declared types -/

/-- Flow type `ButtonType = "primary" | "secondary" | "ternary" | "ghost"` (line 1). -/
inductive ButtonType where
  | primary
  | secondary
  | ternary
  | ghost
  deriving DecidableEq, Repr, Fintype

/-- The string literal a `ButtonType` variant is written as in the source. -/
def ButtonType.toString : ButtonType → String
  | .primary => "primary"
  | .secondary => "secondary"
  | .ternary => "ternary"
  | .ghost => "ghost"

/-- Reading of a JavaScript string as a `ButtonType`: only the four literals of the union are
accepted. -/
def ButtonType.ofString (s : String) : Option ButtonType :=
  if s = "primary" then some .primary
  else if s = "secondary" then some .secondary
  else if s = "ternary" then some .ternary
  else if s = "ghost" then some .ghost
  else none

/-- Flow type `ButtonSize = "tiny" | "small" | "default"` (line 3). -/
inductive ButtonSize where
  | tiny
  | small
  | default
  deriving DecidableEq, Repr, Fintype

/-- The string literal a `ButtonSize` variant is written as in the source. -/
def ButtonSize.toString : ButtonSize → String
  | .tiny => "tiny"
  | .small => "small"
  | .default => "default"

/-- Reading of a JavaScript string as a `ButtonSize`: only the three literals of the union are
accepted. -/
def ButtonSize.ofString (s : String) : Option ButtonSize :=
  if s = "tiny" then some .tiny
  else if s = "small" then some .small
  else if s = "default" then some .default
  else none

/-- The inline union `"submit" | "button"` of the property `htmlType` (line 7). -/
inductive HtmlType where
  | submit
  | button
  deriving DecidableEq, Repr, Fintype

/-- The library types that the declarations use without defining them. -/
structure Host where
  /-- Stands for `ElementRef<any>`. -/
  ElementRef : Type
  /-- Stands for `React$Node`. -/
  ReactNode : Type
  /-- Stands for `SyntheticEvent<any>`. -/
  SyntheticEvent : Type
  /-- Stands for `Promise<any>`. -/
  PromiseAny : Type
  /-- Stands for `Object`. -/
  Object : Type

/-- The result type `void | Promise<any>` of the `onClick` property (line 10). -/
inductive ClickResult (H : Host) where
  | void : ClickResult H
  | promise (completion : H.PromiseAny) : ClickResult H

/-- Whether a click result is a promise. -/
def ClickResult.isPromise {H : Host} : ClickResult H → Bool
  | .void => false
  | .promise _ => true

/-- Flow object type `Props` (lines 5-16), fields in source order.  A property declared with
`?:` is `Option`-valued, `none` standing for a property that is not supplied. -/
structure Props (H : Host) where
  innerRef : Option H.ElementRef
  htmlType : Option HtmlType
  text : H.ReactNode
  type : ButtonType
  onClick : Option (H.SyntheticEvent → ClickResult H)
  className : Option String
  loading : Option Bool
  disabled : Bool
  size : ButtonSize
  style : Option H.Object

/-- Flow object type `State` (lines 18-20). -/
structure State where
  loading : Bool
  deriving DecidableEq, Repr, Fintype

/-- One property line of an object type declaration: its name and whether it is written
with `?:`. -/
structure FieldDecl where
  name : String
  optional : Bool
  deriving DecidableEq, Repr

/-- The property lines of `Props` (lines 6-15), in source order. -/
def Props.fields : List FieldDecl :=
  [ ⟨"innerRef", true⟩,
    ⟨"htmlType", true⟩,
    ⟨"text", false⟩,
    ⟨"type", false⟩,
    ⟨"onClick", true⟩,
    ⟨"className", true⟩,
    ⟨"loading", true⟩,
    ⟨"disabled", false⟩,
    ⟨"size", false⟩,
    ⟨"style", true⟩ ]

/-- The property lines of `State` (line 19). -/
def State.fields : List FieldDecl :=
  [ ⟨"loading", false⟩ ]

/-- Names of the properties declared without `?`. -/
def requiredNames (fs : List FieldDecl) : List String :=
  (fs.filter (fun f => !f.optional)).map (fun f => f.name)

/-- Names of the properties declared with `?`. -/
def optionalNames (fs : List FieldDecl) : List String :=
  (fs.filter (fun f => f.optional)).map (fun f => f.name)

/-- The singleton list of a name when the optional value is there, the empty list otherwise. -/
def nameIfSome {α : Type} (n : String) : Option α → List String
  | some _ => [n]
  | none => []

/-- Names of the properties a `Props` value supplies, in source order. -/
def Props.supplied {H : Host} (p : Props H) : List String :=
  nameIfSome "innerRef" p.innerRef ++
  nameIfSome "htmlType" p.htmlType ++
  ["text", "type"] ++
  nameIfSome "onClick" p.onClick ++
  nameIfSome "className" p.className ++
  nameIfSome "loading" p.loading ++
  ["disabled", "size"] ++
  nameIfSome "style" p.style

/-- The `Props` value that supplies the four required properties and nothing else. -/
def Props.minimal {H : Host} (text : H.ReactNode) (type : ButtonType) (disabled : Bool)
    (size : ButtonSize) : Props H :=
  { innerRef := none, htmlType := none, text := text, type := type, onClick := none,
    className := none, loading := none, disabled := disabled, size := size, style := none }

/-- Names of the properties a `State` value supplies. -/
def State.supplied (_s : State) : List String :=
  ["loading"]

/-- The state with `loading = false`. -/
def State.idle : State := { loading := false }

/-- The state with `loading = true`. -/
def State.busy : State := { loading := true }

/-- A host in which every library type is a string, for concrete evaluation. -/
def Host.strings : Host :=
  { ElementRef := String, ReactNode := String, SyntheticEvent := String,
    PromiseAny := String, Object := String }

/-! ## Behaviour of the component

The class `Button` appears in the source only as the commented line
`declare class Button extends React$Component<Props, State>`; its body is not there.
The definitions below follow the written specification of the component. -/

/-- The two ways a promise settles. -/
inductive Outcome where
  | fulfilled
  | rejected
  deriving DecidableEq, Repr

/-- A mounted component: its `State`, the events `onClick` has been invoked with so far
(oldest first), and the completion returned by `onClick` that has not settled yet, if any. -/
structure Component (H : Host) where
  state : State
  calls : List H.SyntheticEvent
  pending : Option H.PromiseAny

/-- Modelled from the spec: the constructor of the class `Button`, which is missing from the
source.  "State created at mount from `props.loading`": the state takes the value of the
`loading` property when it is supplied.  The specification does not say what the state holds
when the property is not supplied, so that value is the argument `absentLoading`. -/
def mount {H : Host} (absentLoading : Bool) (p : Props H) : Component H :=
  { state := { loading := p.loading.getD absentLoading }, calls := [], pending := none }

/-- Modelled from the spec: the activation handler of the class `Button`, which is missing from
the source.  "If `disabled` is true or internal `loading` state is true, the activation is
ignored.  Otherwise, invoke `onClick` with the triggering event.  If the handler's return value
is a pending asynchronous completion: set internal `loading` to true immediately.  If the
handler returns immediately, no loading-state transition occurs." -/
def handleClick {H : Host} (p : Props H) (c : Component H) (e : H.SyntheticEvent) :
    Component H :=
  if p.disabled || c.state.loading then c
  else
    match p.onClick with
    | none => c
    | some f =>
      match f e with
      | .void => { c with calls := c.calls ++ [e] }
      | .promise q =>
        { state := { loading := true }, calls := c.calls ++ [e], pending := some q }

/-- Modelled from the spec: the settlement callback of the class `Button`, which is missing
from the source.  "Reset it to false when the completion settles (success or failure),
regardless of outcome."  With no completion outstanding there is nothing to settle. -/
def settle {H : Host} (c : Component H) (_o : Outcome) : Component H :=
  match c.pending with
  | none => c
  | some _ => { c with state := { loading := false }, pending := none }

/-- The discrete events a mounted component reacts to. -/
inductive Input (H : Host) where
  | activate (e : H.SyntheticEvent) : Input H
  | settled (o : Outcome) : Input H

/-- Modelled from the spec: one transition of the state machine of section 4.1. -/
def step {H : Host} (p : Props H) (c : Component H) : Input H → Component H
  | .activate e => handleClick p c e
  | .settled o => settle c o

/-- Modelled from the spec: the component after a sequence of events, oldest first. -/
def run {H : Host} (p : Props H) (c : Component H) (inputs : List (Input H)) : Component H :=
  inputs.foldl (step p) c

/-- A concrete handler that returns a promise whatever the event. -/
def asyncHandler : Host.strings.SyntheticEvent → ClickResult Host.strings :=
  fun _ => ClickResult.promise "job"

/-- A concrete handler that returns nothing whatever the event. -/
def syncHandler : Host.strings.SyntheticEvent → ClickResult Host.strings :=
  fun _ => ClickResult.void

/-- A concrete configuration: enabled, primary, small, with a handler that returns a promise. -/
def sampleAsync : Props Host.strings :=
  { Props.minimal "Save" .primary false .small with onClick := some asyncHandler }

/-- A concrete configuration: enabled, ghost, tiny, with a handler that returns nothing. -/
def sampleSync : Props Host.strings :=
  { Props.minimal "Close" .ghost false .tiny with onClick := some syncHandler }

/-- A concrete configuration: disabled, with a handler that returns a promise. -/
def sampleDisabled : Props Host.strings :=
  { Props.minimal "Send" .secondary true .default with
    onClick := some asyncHandler, loading := some false }

/-- A concrete idle component with an empty call log. -/
def sampleIdle : Component Host.strings :=
  { state := State.idle, calls := [], pending := none }

/-- A concrete busy component that has been clicked once. -/
def sampleBusy : Component Host.strings :=
  { state := State.busy, calls := ["click1"], pending := some "job" }

/-! ## Theorems about the declared types -/

theorem buttonType_ofString_eq_some (s : String) (b : ButtonType) :
    ButtonType.ofString s = some b ↔ b.toString = s := by
  unfold ButtonType.ofString
  constructor
  · intro h
    split_ifs at h <;> simp_all [ButtonType.toString] <;> subst h <;> simp [ButtonType.toString]
  · intro h
    subst h
    cases b <;> simp [ButtonType.toString]

theorem buttonSize_ofString_eq_some (s : String) (b : ButtonSize) :
    ButtonSize.ofString s = some b ↔ b.toString = s := by
  unfold ButtonSize.ofString
  constructor
  · intro h
    split_ifs at h <;> simp_all [ButtonSize.toString] <;> subst h <;> simp [ButtonSize.toString]
  · intro h
    subst h
    cases b <;> simp [ButtonSize.toString]

/-- C1: `ButtonType` is a closed set of exactly four pairwise-distinct variants.  Every value is
one of primary, secondary, ternary, ghost; the four are pairwise distinct and there are four
values in all; a string is a `ButtonType` exactly when it is one of the four literals, and each
literal is read back as the variant it is written for. -/
theorem buttonType_closed :
    (∀ b : ButtonType, b = .primary ∨ b = .secondary ∨ b = .ternary ∨ b = .ghost) ∧
    [ButtonType.primary, .secondary, .ternary, .ghost].Nodup ∧
    Fintype.card ButtonType = 4 ∧
    (∀ s : String, (ButtonType.ofString s).isSome = true ↔
      s ∈ ["primary", "secondary", "ternary", "ghost"]) ∧
    (∀ (s : String) (b : ButtonType), ButtonType.ofString s = some b ↔ b.toString = s) := by
  refine ⟨?_, by decide, rfl, ?_, buttonType_ofString_eq_some⟩
  · intro b
    cases b <;> simp
  · intro s
    unfold ButtonType.ofString
    split_ifs <;> simp_all

/-- C2: `ButtonSize` is a closed set of exactly three pairwise-distinct variants.  Every value
is one of tiny, small, default; the three are pairwise distinct and there are three values in
all; a string is a `ButtonSize` exactly when it is one of the three literals, and each literal
is read back as the variant it is written for. -/
theorem buttonSize_closed :
    (∀ b : ButtonSize, b = .tiny ∨ b = .small ∨ b = .default) ∧
    [ButtonSize.tiny, .small, .default].Nodup ∧
    Fintype.card ButtonSize = 3 ∧
    (∀ s : String, (ButtonSize.ofString s).isSome = true ↔
      s ∈ ["tiny", "small", "default"]) ∧
    (∀ (s : String) (b : ButtonSize), ButtonSize.ofString s = some b ↔ b.toString = s) := by
  refine ⟨?_, by decide, rfl, ?_, buttonSize_ofString_eq_some⟩
  · intro b
    cases b <;> simp
  · intro s
    unfold ButtonSize.ofString
    split_ifs <;> simp_all

theorem mem_nameIfSome {α : Type} {n m : String} {o : Option α} (h : m ∈ nameIfSome n o) :
    m = n := by
  cases o with
  | none => simp [nameIfSome] at h
  | some a => simpa [nameIfSome] using h

/-- C3: in `Props` exactly text, type, disabled and size are declared required and exactly
innerRef, htmlType, onClick, className, loading and style are declared optional; every `Props`
value supplies the four required properties and nothing outside the ten declared ones; and the
value built from a text, a `ButtonType`, a boolean and a `ButtonSize` alone is a `Props` value
that supplies exactly the four required properties and carries the values it was built from. -/
theorem props_required_optional :
    requiredNames Props.fields = ["text", "type", "disabled", "size"] ∧
    optionalNames Props.fields =
      ["innerRef", "htmlType", "onClick", "className", "loading", "style"] ∧
    (∀ (H : Host) (p : Props H),
      requiredNames Props.fields ⊆ p.supplied ∧
      p.supplied ⊆ Props.fields.map (fun f => f.name)) ∧
    (∀ (H : Host) (t : H.ReactNode) (ty : ButtonType) (d : Bool) (sz : ButtonSize),
      (Props.minimal t ty d sz : Props H).supplied = requiredNames Props.fields ∧
      (Props.minimal t ty d sz : Props H).text = t ∧
      (Props.minimal t ty d sz : Props H).type = ty ∧
      (Props.minimal t ty d sz : Props H).disabled = d ∧
      (Props.minimal t ty d sz : Props H).size = sz) := by
  refine ⟨by decide, by decide, ?_, ?_⟩
  · intro H p
    have hreq : requiredNames Props.fields = ["text", "type", "disabled", "size"] := by decide
    have hall : Props.fields.map (fun f => f.name) =
        ["innerRef", "htmlType", "text", "type", "onClick", "className", "loading",
          "disabled", "size", "style"] := by decide
    rw [hreq, hall]
    constructor
    · intro n hn
      simp only [Props.supplied, List.mem_append, List.mem_cons]
      simp only [List.mem_cons, List.mem_singleton, List.not_mem_nil, or_false] at hn
      rcases hn with h | h | h | h <;> simp [h]
    · intro n hn
      simp only [Props.supplied, List.mem_append, List.mem_cons, List.mem_singleton,
        List.not_mem_nil, or_false] at hn
      rcases hn with (((((((h | h) | h | h) | h) | h) | h) | h | h) | h)
      all_goals first
        | (have hm := mem_nameIfSome h; simp [hm])
        | simp [h]
  · intro H t ty d sz
    exact ⟨rfl, rfl, rfl, rfl, rfl⟩

/-- C4: `State` declares the single required boolean property `loading`, so there are exactly
two states, idle (`loading = false`) and busy (`loading = true`): every `State` value is one of
the two and the two are distinct. -/
theorem state_two_values :
    requiredNames State.fields = ["loading"] ∧
    optionalNames State.fields = [] ∧
    (∀ s : State, s.supplied = requiredNames State.fields) ∧
    State.idle.loading = false ∧
    State.busy.loading = true ∧
    (∀ s : State, s = State.idle ∨ s = State.busy) ∧
    State.idle ≠ State.busy ∧
    Fintype.card State = 2 := by
  refine ⟨by decide, by decide, fun _ => rfl, rfl, rfl, ?_, by decide, rfl⟩
  rintro ⟨b⟩
  cases b
  · exact Or.inl rfl
  · exact Or.inr rfl

/-- C5: the `onClick` property is either not supplied or a function of one event, and the
result of such a function on an event is exactly one of two shapes, nothing or a promise:
always one of the two and never both. -/
theorem onClick_result_shapes (H : Host) (p : Props H) :
    (p.onClick = none ∨ ∃ f : H.SyntheticEvent → ClickResult H, p.onClick = some f) ∧
    (∀ f : H.SyntheticEvent → ClickResult H, p.onClick = some f → ∀ e : H.SyntheticEvent,
      (f e = ClickResult.void ∨ ∃ q : H.PromiseAny, f e = ClickResult.promise q) ∧
      ¬ (f e = ClickResult.void ∧ ∃ q : H.PromiseAny, f e = ClickResult.promise q) ∧
      ((f e).isPromise = false ↔ f e = ClickResult.void) ∧
      ((f e).isPromise = true ↔ ∃ q : H.PromiseAny, f e = ClickResult.promise q)) := by
  constructor
  · cases h : p.onClick with
    | none => exact Or.inl rfl
    | some f => exact Or.inr ⟨f, rfl⟩
  · intro f _ e
    cases f e with
    | void => simp [ClickResult.isPromise]
    | promise q => simp [ClickResult.isPromise]

theorem onClick_result_shapes_witness :
    sampleAsync.onClick = some asyncHandler ∧
    (asyncHandler "click" = ClickResult.void ∨
      ∃ q : Host.strings.PromiseAny, asyncHandler "click" = ClickResult.promise q) ∧
    ¬ (asyncHandler "click" = ClickResult.void ∧
      ∃ q : Host.strings.PromiseAny, asyncHandler "click" = ClickResult.promise q) :=
  ⟨rfl,
    ((onClick_result_shapes Host.strings sampleAsync).2 asyncHandler rfl "click").1,
    ((onClick_result_shapes Host.strings sampleAsync).2 asyncHandler rfl "click").2.1⟩

/-! ## Theorems about the behaviour -/

theorem handleClick_of_blocked {H : Host} (p : Props H) (c : Component H) (e : H.SyntheticEvent)
    (h : (p.disabled || c.state.loading) = true) : handleClick p c e = c := by
  simp [handleClick, h]

theorem run_nil {H : Host} (p : Props H) (c : Component H) : run p c [] = c := rfl

theorem run_cons {H : Host} (p : Props H) (c : Component H) (i : Input H)
    (rest : List (Input H)) : run p c (i :: rest) = run p (step p c i) rest := rfl

/-- C6: with `disabled = true`, in every component state, an activation is ignored: the
component is unchanged, so `onClick` has not been invoked (the call log is the same) and the
state is the same; the same holds after any number of activations. -/
theorem disabled_ignores_activation {H : Host} (p : Props H) (c : Component H)
    (hd : p.disabled = true) :
    (∀ e : H.SyntheticEvent,
      handleClick p c e = c ∧
      (handleClick p c e).calls = c.calls ∧
      (handleClick p c e).state = c.state) ∧
    (∀ es : List H.SyntheticEvent, run p c (es.map Input.activate) = c) := by
  have h1 : ∀ (d : Component H) (e : H.SyntheticEvent), handleClick p d e = d :=
    fun d e => handleClick_of_blocked p d e (by simp [hd])
  refine ⟨fun e => ⟨h1 c e, by rw [h1], by rw [h1]⟩, ?_⟩
  intro es
  induction es with
  | nil => rfl
  | cons e rest ih =>
    rw [List.map_cons, run_cons]
    show run p (handleClick p c e) _ = c
    rw [h1 c e]
    exact ih

theorem disabled_ignores_activation_witness :
    sampleDisabled.disabled = true ∧
    (handleClick sampleDisabled sampleIdle "click").calls = sampleIdle.calls ∧
    (handleClick sampleDisabled sampleIdle "click").state = sampleIdle.state :=
  ⟨rfl,
    ((disabled_ignores_activation sampleDisabled sampleIdle rfl).1 "click").2.1,
    ((disabled_ignores_activation sampleDisabled sampleIdle rfl).1 "click").2.2⟩

/-- C7: when the state has `loading = true`, whatever the value of `disabled`, an activation is
ignored: `onClick` is not invoked (the call log is the same), the component is unchanged and
the state is still busy; the same holds after any number of activations. -/
theorem busy_ignores_activation {H : Host} (p : Props H) (c : Component H)
    (hl : c.state.loading = true) :
    (∀ e : H.SyntheticEvent,
      handleClick p c e = c ∧
      (handleClick p c e).calls = c.calls ∧
      (handleClick p c e).state = State.busy) ∧
    (∀ es : List H.SyntheticEvent, run p c (es.map Input.activate) = c) := by
  have h1 : ∀ e : H.SyntheticEvent, handleClick p c e = c :=
    fun e => handleClick_of_blocked p c e (by simp [hl])
  have hb : c.state = State.busy := by
    rcases c with ⟨⟨b⟩, cs, pe⟩
    simp only at hl
    subst hl
    rfl
  refine ⟨fun e => ⟨h1 e, by rw [h1], by rw [h1, hb]⟩, ?_⟩
  intro es
  induction es with
  | nil => rfl
  | cons e rest ih =>
    rw [List.map_cons, run_cons]
    show run p (handleClick p c e) _ = c
    rw [h1 e]
    exact ih

theorem busy_ignores_activation_witness :
    sampleBusy.state.loading = true ∧
    sampleAsync.disabled = false ∧
    (handleClick sampleAsync sampleBusy "click2").calls = sampleBusy.calls ∧
    (handleClick sampleAsync sampleBusy "click2").state = State.busy :=
  ⟨rfl, rfl,
    ((busy_ignores_activation sampleAsync sampleBusy rfl).1 "click2").2.1,
    ((busy_ignores_activation sampleAsync sampleBusy rfl).1 "click2").2.2⟩

theorem handleClick_of_promise {H : Host} (p : Props H) (c : Component H)
    (f : H.SyntheticEvent → ClickResult H) (e : H.SyntheticEvent) (q : H.PromiseAny)
    (hd : p.disabled = false) (hl : c.state.loading = false) (hf : p.onClick = some f)
    (hq : f e = ClickResult.promise q) :
    handleClick p c e =
      { state := { loading := true }, calls := c.calls ++ [e], pending := some q } := by
  simp [handleClick, hd, hl, hf, hq]

/-- C8: for an enabled, idle component whose `onClick` returns a promise on the event, the
handler is invoked with that event and the state right after the activation is busy
(`loading = true`) with that promise outstanding; when the promise settles, fulfilled or
rejected, the state is idle (`loading = false`) again and nothing is outstanding. -/
theorem pending_click_busy_then_idle {H : Host} (p : Props H) (c : Component H)
    (f : H.SyntheticEvent → ClickResult H) (e : H.SyntheticEvent) (q : H.PromiseAny)
    (hd : p.disabled = false) (hl : c.state.loading = false) (hf : p.onClick = some f)
    (hq : f e = ClickResult.promise q) :
    (handleClick p c e).state = State.busy ∧
    (handleClick p c e).calls = c.calls ++ [e] ∧
    (handleClick p c e).pending = some q ∧
    (∀ o : Outcome,
      (settle (handleClick p c e) o).state = State.idle ∧
      (settle (handleClick p c e) o).pending = none ∧
      (run p c [Input.activate e, Input.settled o]).state = State.idle) := by
  have h := handleClick_of_promise p c f e q hd hl hf hq
  refine ⟨by rw [h]; rfl, by rw [h], by rw [h], ?_⟩
  intro o
  have hs : settle (handleClick p c e) o =
      { state := { loading := false }, calls := c.calls ++ [e], pending := none } := by
    rw [h]
    rfl
  refine ⟨by rw [hs]; rfl, by rw [hs], ?_⟩
  show (settle (handleClick p c e) o).state = State.idle
  rw [hs]
  rfl

theorem pending_click_busy_then_idle_witness :
    sampleAsync.disabled = false ∧
    sampleIdle.state.loading = false ∧
    sampleAsync.onClick = some asyncHandler ∧
    asyncHandler "click" = ClickResult.promise "job" ∧
    (handleClick sampleAsync sampleIdle "click").state = State.busy ∧
    (settle (handleClick sampleAsync sampleIdle "click") Outcome.fulfilled).state = State.idle ∧
    (settle (handleClick sampleAsync sampleIdle "click") Outcome.rejected).state = State.idle :=
  ⟨rfl, rfl, rfl, rfl,
    (pending_click_busy_then_idle sampleAsync sampleIdle asyncHandler "click" "job"
      rfl rfl rfl rfl).1,
    ((pending_click_busy_then_idle sampleAsync sampleIdle asyncHandler "click" "job"
      rfl rfl rfl rfl).2.2.2 Outcome.fulfilled).1,
    ((pending_click_busy_then_idle sampleAsync sampleIdle asyncHandler "click" "job"
      rfl rfl rfl rfl).2.2.2 Outcome.rejected).1⟩

theorem handleClick_of_void {H : Host} (p : Props H) (c : Component H)
    (f : H.SyntheticEvent → ClickResult H) (e : H.SyntheticEvent)
    (hf : p.onClick = some f) (hv : f e = ClickResult.void) :
    (handleClick p c e).state = c.state ∧ (handleClick p c e).pending = c.pending := by
  unfold handleClick
  split_ifs
  · exact ⟨rfl, rfl⟩
  · simp [hf, hv]

theorem step_of_void {H : Host} (p : Props H) (f : H.SyntheticEvent → ClickResult H)
    (hf : p.onClick = some f) (hv : ∀ e : H.SyntheticEvent, f e = ClickResult.void)
    (c : Component H) (hp : c.pending = none) (i : Input H) :
    (step p c i).state = c.state ∧ (step p c i).pending = none := by
  cases i with
  | activate e =>
    have h := handleClick_of_void p c f e hf (hv e)
    exact ⟨h.1, h.2.trans hp⟩
  | settled o =>
    show (settle c o).state = c.state ∧ (settle c o).pending = none
    simp [settle, hp]

theorem run_of_void {H : Host} (p : Props H) (f : H.SyntheticEvent → ClickResult H)
    (hf : p.onClick = some f) (hv : ∀ e : H.SyntheticEvent, f e = ClickResult.void)
    (inputs : List (Input H)) :
    ∀ c : Component H, c.pending = none → (run p c inputs).state = c.state := by
  induction inputs with
  | nil => intro c _; rfl
  | cons i rest ih =>
    intro c hp
    have h := step_of_void p f hf hv c hp i
    rw [run_cons, ih (step p c i) h.2, h.1]

/-- C9: when `onClick` returns nothing on the event, an activation leaves the loading state
exactly as it was, in every component state; and when `onClick` returns nothing on every event,
the loading state of a component with no completion outstanding stays what it was through any
sequence of activations and settlement events. -/
theorem immediate_click_no_transition {H : Host} (p : Props H)
    (f : H.SyntheticEvent → ClickResult H) (c : Component H) (hf : p.onClick = some f) :
    (∀ e : H.SyntheticEvent, f e = ClickResult.void →
      (handleClick p c e).state = c.state ∧ (handleClick p c e).pending = c.pending) ∧
    ((∀ e : H.SyntheticEvent, f e = ClickResult.void) → c.pending = none →
      ∀ inputs : List (Input H), (run p c inputs).state = c.state) :=
  ⟨fun e hv => handleClick_of_void p c f e hf hv,
    fun hv hp inputs => run_of_void p f hf hv inputs c hp⟩

theorem immediate_click_no_transition_witness :
    sampleSync.onClick = some syncHandler ∧
    syncHandler "click" = ClickResult.void ∧
    sampleIdle.pending = none ∧
    (handleClick sampleSync sampleIdle "click").state = sampleIdle.state ∧
    (run sampleSync sampleIdle
      [Input.activate "a", Input.settled Outcome.rejected, Input.activate "b"]).state =
      sampleIdle.state :=
  ⟨rfl, rfl, rfl,
    ((immediate_click_no_transition sampleSync syncHandler sampleIdle rfl).1 "click" rfl).1,
    (immediate_click_no_transition sampleSync syncHandler sampleIdle rfl).2
      (fun _ => rfl) rfl _⟩

/-- A freshly mounted component has invoked no handler and has no completion outstanding,
whatever the configuration. -/
theorem mount_calls_pending {H : Host} (absentLoading : Bool) (p : Props H) :
    (mount absentLoading p).calls = [] ∧ (mount absentLoading p).pending = none :=
  ⟨rfl, rfl⟩

end Button
